import Mathlib

/-!
Verification development for the feedback triage core of the repository
(clustering, prioritization, fix lifecycle, digest assembly, `src/index.ts`).

The TypeScript source is shallowly embedded:
JavaScript numbers are modelled as exact rationals `ℚ` (and `ℝ` where the
source takes square roots or logarithms), JS arrays as `List`, absent/optional
record fields as `Option`, and the external collaborators (classification,
embedding, storage, chat delivery) as parameters of the embedded functions.
JS regular expressions are embedded through a small executable
regular-expression engine (`RE`) over `List Char`, with JS `test`/`match(/g)`
semantics (case-sensitive, greedy, leftmost).
-/

namespace CFFeedback

/-! ### Character classes of the JS regex dialect used by the source -/

/-- JS `\w`: `[A-Za-z0-9_]`. -/
def isWordChar (c : Char) : Bool :=
  (97 ≤ c.toNat && c.toNat ≤ 122) || (65 ≤ c.toNat && c.toNat ≤ 90) ||
  (48 ≤ c.toNat && c.toNat ≤ 57) || c == '_'

/-- JS `\s` (the whitespace characters that can occur in the feedback texts). -/
def isSpaceChar (c : Char) : Bool :=
  c == ' ' || c == '\t' || c == '\n' || c == '\r' || c == Char.ofNat 11 || c == Char.ofNat 12

/-- JS `\d`: `[0-9]`. -/
def isDigitChar (c : Char) : Bool :=
  48 ≤ c.toNat && c.toNat ≤ 57

/-- JS `.`: any character except a line terminator. -/
def isDotChar (c : Char) : Bool :=
  !(c == '\n' || c == '\r' || c == Char.ofNat 0x2028 || c == Char.ofNat 0x2029)

/-- The apostrophe character, kept out of string literals. -/
def apoC : Char := Char.ofNat 39

/-- Helper building the character list of a word containing one apostrophe,
such as the JS literals spelled `can` + apostrophe + `t`. -/
def withApo (a b : String) : List Char := a.toList ++ apoC :: b.toList

/-! ### A small regular-expression engine

Only the constructs appearing in the source's patterns are supported:
character classes, concatenation, alternation, class repetition
(`\w+`, `\s*`, `.*`, ...), and the zero-width word-boundary assertion `\b`.
All repetitions in the source's patterns are over single character classes,
so a class-star suffices and the matcher is structurally recursive. -/

inductive RE where
  | eps : RE
  | cls : (Char → Bool) → RE
  | starC : (Char → Bool) → RE
  | cat : RE → RE → RE
  | alt : RE → RE → RE
  | wb : RE

/-- Word-boundary test between the previously consumed character and the rest. -/
def atBoundary (prev : Option Char) (rest : List Char) : Bool :=
  let l := match prev with | none => false | some c => isWordChar c
  let r := match rest with | [] => false | c :: _ => isWordChar c
  l != r

/-- States reachable by letting a class-star consume a prefix, longest first
(JS greedy order). Each state is (last consumed character, remaining input). -/
def starStates (f : Char → Bool) (p : Option Char) : List Char → List (Option Char × List Char)
  | [] => [(p, [])]
  | c :: rest =>
    if f c then starStates f (some c) rest ++ [(p, c :: rest)]
    else [(p, c :: rest)]

/-- All ways `re` can match a prefix of the input, in JS backtracking order
(greedy stars, left alternative first). -/
def reMatch : RE → Option Char → List Char → List (Option Char × List Char)
  | .eps, p, s => [(p, s)]
  | .cls _, _, [] => []
  | .cls f, _, c :: rest => if f c then [(some c, rest)] else []
  | .starC f, p, s => starStates f p s
  | .cat a b, p, s => (reMatch a p s).flatMap (fun st => reMatch b st.1 st.2)
  | .alt a b, p, s => reMatch a p s ++ reMatch b p s
  | .wb, p, s => if atBoundary p s then [(p, s)] else []

/-- JS `RegExp.test`: does the pattern match starting at some position. -/
def reTestAux (re : RE) : Option Char → List Char → Bool
  | p, [] => !(reMatch re p []).isEmpty
  | p, c :: rest => !(reMatch re p (c :: rest)).isEmpty || reTestAux re (some c) rest

/-- JS `RegExp.test` on a whole input. -/
def reTest (re : RE) (s : List Char) : Bool := reTestAux re none s

/-- JS `String.match` with the `g` flag: scan left to right, at each
position take the backtracking-preferred match and continue after it.
The fuel argument bounds the scan (the caller passes the input length). -/
def reFindAllAux (re : RE) : ℕ → Option Char → List Char → List (List Char)
  | 0, _, _ => []
  | _ + 1, _, [] => []
  | fuel + 1, p, c :: rest =>
    match (reMatch re p (c :: rest)).head? with
    | none => reFindAllAux re fuel (some c) rest
    | some st =>
      let k := (c :: rest).length - st.2.length
      if k == 0 then reFindAllAux re fuel (some c) rest
      else ((c :: rest).take k) :: reFindAllAux re fuel st.1 st.2

/-- All substrings matched by a global JS regex scan. -/
def reFindAll (re : RE) (s : List Char) : List (List Char) :=
  reFindAllAux re (s.length + 1) none s

/-! ### Derived regex constructors -/

/-- Literal character sequence. -/
def lit : List Char → RE
  | [] => .eps
  | c :: cs => .cat (.cls (fun x => x == c)) (lit cs)

/-- Literal from a string. -/
def litS (s : String) : RE := lit s.toList

/-- Alternation of a list of patterns (the empty alternation matches nothing). -/
def alts : List RE → RE
  | [] => .cls (fun _ => false)
  | [r] => r
  | r :: rs => .alt r (alts rs)

/-- Alternation of literal words, as in `(a|b|c)`. -/
def words (ws : List String) : RE := alts (ws.map litS)

/-- Sequence of patterns. -/
def reSeq (rs : List RE) : RE := rs.foldr .cat .eps

/-- JS `\s+`. -/
def sP : RE := .cat (.cls isSpaceChar) (.starC isSpaceChar)

/-- JS `\s*`. -/
def sS : RE := .starC isSpaceChar

/-- JS `\w+`. -/
def wP : RE := .cat (.cls isWordChar) (.starC isWordChar)

/-- JS `\w*`. -/
def wS : RE := .starC isWordChar

/-- JS `\d+`. -/
def dP : RE := .cat (.cls isDigitChar) (.starC isDigitChar)

/-- JS `[:\-]?`. -/
def optColonDash : RE := .alt (.cls (fun c => c == ':' || c == '-')) .eps

/-- JS `String.toLowerCase` on the ASCII texts of the data set, as a
character list. -/
def jsToLower (s : String) : List Char := s.toList.map Char.toLower

/-! ### The user-specific predicate (`isUserSpecificFeedback`, index.ts 1221-1278)

The patterns are transcribed verbatim, including their case-sensitivity: the
source lowercases the text first and then tests patterns containing the
capital letter `I`. -/

/-- The `userSpecificPatterns` array of the source, in order. -/
def userSpecificPatterns : List RE := [
  -- /\bmy\s+(subscription|account|billing|payment|data|profile|settings)\b/
  reSeq [.wb, litS "my", sP,
    words ["subscription", "account", "billing", "payment", "data", "profile", "settings"], .wb],
  -- /\bI\s+(am|was|have|had|see|saw|got|received|paid|charged)\b/
  reSeq [.wb, litS "I", sP,
    words ["am", "was", "have", "had", "see", "saw", "got", "received", "paid", "charged"], .wb],
  -- /\bmy\s+(user|account)\s+(id|number|email)\b/
  reSeq [.wb, litS "my", sP, words ["user", "account"], sP, words ["id", "number", "email"], .wb],
  -- /\b(account|subscription|order)\s+(id|number|#)\s*[:\-]?\s*\w+/i
  reSeq [.wb, words ["account", "subscription", "order"], sP,
    words ["id", "number", "#"], sS, optColonDash, sS, wP],
  -- /\b(user|customer)\s+(id|number)\s*[:\-]?\s*\w+/i
  reSeq [.wb, words ["user", "customer"], sP, words ["id", "number"], sS, optColonDash, sS, wP],
  -- /\b(my|I)\s+(subscription|account)\s+(expired|cancelled|renewed|charged)/
  reSeq [.wb, words ["my", "I"], sP, words ["subscription", "account"], sP,
    words ["expired", "cancelled", "renewed", "charged"]],
  -- /\bI\s+(can't|cannot|unable)\s+to\s+(access|see|view)\s+my/
  reSeq [.wb, litS "I", sP, alts [lit (withApo "can" "t"), litS "cannot", litS "unable"], sP,
    litS "to", sP, words ["access", "see", "view"], sP, litS "my"],
  -- /\bmy\s+(subscription|account)\s+(got|was)\s+(cancelled|expired|charged)/
  reSeq [.wb, litS "my", sP, words ["subscription", "account"], sP, words ["got", "was"], sP,
    words ["cancelled", "expired", "charged"]],
  -- /\b(seeing|showing|displaying)\s+(wrong|incorrect|different)\s+(data|information|details)/
  reSeq [.wb, words ["seeing", "showing", "displaying"], sP,
    words ["wrong", "incorrect", "different"], sP, words ["data", "information", "details"]],
  -- /\bmy\s+(data|information|details)\s+(is|are|shows|showing)/
  reSeq [.wb, litS "my", sP, words ["data", "information", "details"], sP,
    words ["is", "are", "shows", "showing"]],
  -- /\bI\s+(was|got)\s+(charged|billed|refunded)\s+/
  reSeq [.wb, litS "I", sP, words ["was", "got"], sP, words ["charged", "billed", "refunded"], sP],
  -- /\bmy\s+(payment|charge|billing)\s+(failed|succeeded|processed)/
  reSeq [.wb, litS "my", sP, words ["payment", "charge", "billing"], sP,
    words ["failed", "succeeded", "processed"]]
]

/-- The `cumulativePatterns` array of the source, in order. -/
def cumulativePatterns : List RE := [
  -- /\b(app|application|system)\s+(crashes|crash|crashing)/
  reSeq [.wb, words ["app", "application", "system"], sP, words ["crashes", "crash", "crashing"]],
  -- /\b(when|while)\s+(going|switching|changing|opening|closing)/
  reSeq [.wb, words ["when", "while"], sP,
    words ["going", "switching", "changing", "opening", "closing"]],
  -- /\b(theme|dark\s+mode|feature)\s+(not\s+working|broken|doesn't\s+work)/
  reSeq [.wb, alts [litS "theme", reSeq [litS "dark", sP, litS "mode"], litS "feature"], sP,
    alts [reSeq [litS "not", sP, litS "working"], litS "broken",
      reSeq [lit (withApo "doesn" "t"), sP, litS "work"]]],
  -- /\b(all|every|many|users|people)\s+(are|can't|cannot)/
  reSeq [.wb, words ["all", "every", "many", "users", "people"], sP,
    alts [litS "are", lit (withApo "can" "t"), litS "cannot"]],
  -- /\b(affecting|affects)\s+(all|every|many|users)/
  reSeq [.wb, words ["affecting", "affects"], sP, words ["all", "every", "many", "users"]]
]

/-- The final catch-all check of the source:
`/\b(my|I)\s+.*\b(subscription|account|billing|payment|data)\b/`. -/
def catchAllPattern : RE :=
  reSeq [.wb, words ["my", "I"], sP, .starC isDotChar, .wb,
    words ["subscription", "account", "billing", "payment", "data"], .wb]

/-- The user-specific predicate (`isUserSpecificFeedback`, index.ts 1221-1278):
lowercase the text, return true on the first user-specific pattern match,
else false on the first cumulative pattern match, else apply the catch-all. -/
def isUserSpecificFeedback (content : String) : Bool :=
  let lower := jsToLower content
  if userSpecificPatterns.any (fun re => reTest re lower) then true
  else if cumulativePatterns.any (fun re => reTest re lower) then false
  else if reTest catchAllPattern lower then true
  else false

/-! ### Cosine similarity (`cosineSimilarity`, index.ts 1679-1696) -/

/-- Cosine similarity of two vectors (index.ts 1679-1696): zero when either
vector is empty or the lengths differ, zero when either accumulated square
norm is zero, otherwise `dot / (sqrt normA * sqrt normB)`. The source's final
`isNaN` coercion to 0 can only fire when the denominator is zero, which the
`normA === 0 || normB === 0` guard already maps to 0, so under exact real
arithmetic it is subsumed by that guard. -/
noncomputable def cosineSimilarity (vecA vecB : List ℝ) : ℝ :=
  if vecA.length = 0 ∨ vecB.length = 0 then 0
  else if vecA.length ≠ vecB.length then 0
  else
    let dotProduct := (List.zipWith (fun a b => a * b) vecA vecB).sum
    let normA := (List.zipWith (fun a b => a * b) vecA vecA).sum
    let normB := (List.zipWith (fun a b => a * b) vecB vecB).sum
    if normA = 0 ∨ normB = 0 then 0
    else dotProduct / (Real.sqrt normA * Real.sqrt normB)

/-- The accumulated square norm of a vector is nonnegative. -/
lemma sumSq_nonneg (l : List ℝ) : 0 ≤ (List.zipWith (fun a b => a * b) l l).sum := by
  rw [List.zipWith_same]
  refine List.sum_nonneg ?_
  intro x hx
  obtain ⟨y, -, rfl⟩ := List.mem_map.mp hx
  exact mul_self_nonneg y

/-- C1: the cosine similarity returns `dot / (‖a‖·‖b‖)`; it returns 0 whenever
either vector is empty, the lengths differ, or either norm is zero (the NaN
case of the source); identical vectors of nonzero norm give 1; vectors with
zero dot product give 0. -/
theorem cosineSimilarity_spec :
    (∀ vecA vecB : List ℝ,
        vecA.length = 0 ∨ vecB.length = 0 ∨ vecA.length ≠ vecB.length →
        cosineSimilarity vecA vecB = 0)
  ∧ (∀ vecA vecB : List ℝ,
        (List.zipWith (fun a b => a * b) vecA vecA).sum = 0 ∨
          (List.zipWith (fun a b => a * b) vecB vecB).sum = 0 →
        cosineSimilarity vecA vecB = 0)
  ∧ (∀ vecA vecB : List ℝ,
        vecA.length = vecB.length →
        (List.zipWith (fun a b => a * b) vecA vecA).sum ≠ 0 →
        (List.zipWith (fun a b => a * b) vecB vecB).sum ≠ 0 →
        cosineSimilarity vecA vecB =
          (List.zipWith (fun a b => a * b) vecA vecB).sum /
            (Real.sqrt (List.zipWith (fun a b => a * b) vecA vecA).sum *
              Real.sqrt (List.zipWith (fun a b => a * b) vecB vecB).sum))
  ∧ (∀ vecA : List ℝ,
        (List.zipWith (fun a b => a * b) vecA vecA).sum ≠ 0 →
        cosineSimilarity vecA vecA = 1)
  ∧ (∀ vecA vecB : List ℝ,
        (List.zipWith (fun a b => a * b) vecA vecB).sum = 0 →
        cosineSimilarity vecA vecB = 0) := by
  have hlen0 : ∀ l : List ℝ, l.length = 0 →
      (List.zipWith (fun a b => a * b) l l).sum = 0 := by
    intro l hl
    rw [List.length_eq_zero] at hl
    subst hl
    simp
  refine ⟨?_, ?_, ?_, ?_, ?_⟩
  · intro a b h
    unfold cosineSimilarity
    dsimp only
    split_ifs with h1 h2 h3 <;> first | rfl | (exfalso; tauto)
  · intro a b h
    unfold cosineSimilarity
    dsimp only
    split_ifs with h1 h2 <;> rfl
  · intro a b hlen hA hB
    unfold cosineSimilarity
    dsimp only
    split_ifs with h1 h2 h3
    · rcases h1 with h1 | h1
      · exact absurd (hlen0 a h1) hA
      · exact absurd (hlen0 b h1) hB
    · exact absurd hlen h2
    · tauto
    · rfl
  · intro a hA
    unfold cosineSimilarity
    dsimp only
    split_ifs with h1 h2 h3
    · rcases h1 with h1 | h1 <;> exact absurd (hlen0 a h1) hA
    · exact absurd rfl h2
    · tauto
    · rw [Real.mul_self_sqrt (sumSq_nonneg a), div_self hA]
  · intro a b h
    unfold cosineSimilarity
    dsimp only
    split_ifs with h1 h2 h3 <;> try rfl
    rw [h, zero_div]

/-- Witness for C1: identical nonzero vectors, evaluated at `[1]`. -/
theorem cosineSimilarity_spec_witness :
    (List.zipWith (fun a b => a * b) [(1 : ℝ)] [(1 : ℝ)]).sum ≠ 0 ∧
      cosineSimilarity [(1 : ℝ)] [(1 : ℝ)] = 1 :=
  ⟨by norm_num, cosineSimilarity_spec.2.2.2.1 [(1 : ℝ)] (by norm_num)⟩

/-! ### Running-mean centroid update (index.ts 1550-1565)

On a match the source increments `count` and then maps
`centroid[i] = (centroid[i]*(count-1) + embedding[i]) / count`
over the centroid (guarded by equal lengths). -/

/-- One centroid update; `count` is the already incremented member count. -/
def centroidMerge (centroid : List ℚ) (count : ℕ) (embedding : List ℚ) : List ℚ :=
  List.zipWith (fun val e => (val * ((count : ℚ) - 1) + e) / (count : ℚ)) centroid embedding

/-- A cluster built by folding: created from its first member's embedding
verbatim with count 1 (index.ts 1595-1600), then merging each further
embedding through `centroidMerge`. Returns the final centroid and count. -/
def foldCentroid (first : List ℚ) (rest : List (List ℚ)) : List ℚ × ℕ :=
  rest.foldl (fun st e => (centroidMerge st.1 (st.2 + 1) e, st.2 + 1)) (first, 1)

/-- Pointwise sum of a list of embeddings, starting from `init`. -/
def vecSum (init : List ℚ) (vs : List (List ℚ)) : List ℚ :=
  vs.foldl (fun acc e => List.zipWith (fun x y => x + y) acc e) init

/-- Merging one embedding into an `n`-fold average gives an `(n+1)`-fold
average of the augmented sum. -/
lemma centroidMerge_map_div (s e : List ℚ) (n : ℕ) (hn : n ≠ 0) :
    centroidMerge (s.map (fun x => x / (n : ℚ))) (n + 1) e
      = (List.zipWith (fun x y => x + y) s e).map (fun x => x / (((n + 1 : ℕ)) : ℚ)) := by
  induction s generalizing e with
  | nil => cases e <;> simp [centroidMerge]
  | cons a s ih =>
    cases e with
    | nil => simp [centroidMerge]
    | cons b e =>
      simp only [centroidMerge, List.map_cons, List.zipWith_cons_cons] at *
      refine congrArg₂ _ ?_ (ih e)
      have hq : (n : ℚ) ≠ 0 := Nat.cast_ne_zero.mpr hn
      push_cast
      field_simp

/-- Invariant of the centroid fold: starting from an `n`-fold average of the
running sum `s`, folding `rest` produces an `(n + rest.length)`-fold average
of the total sum. -/
lemma foldCentroid_inv (rest : List (List ℚ)) :
    ∀ (s : List ℚ) (n : ℕ), n ≠ 0 → (∀ e ∈ rest, e.length = s.length) →
      List.foldl (fun st e => (centroidMerge st.1 (st.2 + 1) e, st.2 + 1))
          (s.map (fun x => x / (n : ℚ)), n) rest
        = ((vecSum s rest).map (fun x => x / (((n + rest.length : ℕ)) : ℚ)),
            n + rest.length) := by
  induction rest with
  | nil => intro s n hn _; simp [vecSum]
  | cons e rest ih =>
    intro s n hn hlen
    simp only [List.foldl_cons]
    rw [centroidMerge_map_div s e n hn]
    have hlen2 : ∀ e2 ∈ rest, e2.length = (List.zipWith (fun x y => x + y) s e).length := by
      intro e2 he2
      rw [List.length_zipWith, hlen e (List.mem_cons_self _ _), min_self]
      exact hlen e2 (List.mem_cons_of_mem _ he2)
    rw [ih (List.zipWith (fun x y => x + y) s e) (n + 1) (Nat.succ_ne_zero n) hlen2]
    have hnat : n + 1 + rest.length = n + (e :: rest).length := by
      simp only [List.length_cons]; omega
    rw [hnat]
    rfl

/-- Addition of embeddings is right-commutative (pointwise, with zipWith
truncation). -/
lemma zipWith_add_rightComm (a x y : List ℚ) :
    List.zipWith (fun u v => u + v) (List.zipWith (fun u v => u + v) a x) y
      = List.zipWith (fun u v => u + v) (List.zipWith (fun u v => u + v) a y) x := by
  induction a generalizing x y with
  | nil => simp
  | cons a as ih =>
    cases x with
    | nil => simp
    | cons x xs =>
      cases y with
      | nil => simp
      | cons y ys =>
        simp only [List.zipWith_cons_cons]
        refine congrArg₂ _ (by ring) (ih xs ys)

/-- Summing from the zero vector over the whole member list equals summing
from the first member over the rest. -/
lemma vecSum_zero_base (first : List ℚ) (rest : List (List ℚ)) :
    vecSum first rest
      = List.foldl (fun acc e => List.zipWith (fun x y => x + y) acc e)
          (List.replicate first.length 0) (first :: rest) := by
  have hz : List.zipWith (fun x y => x + y) (List.replicate first.length 0) first = first := by
    induction first with
    | nil => rfl
    | cons a l ih => simpa [List.replicate, List.zipWith_cons_cons] using ih
  simp only [List.foldl_cons, hz]
  rfl

/-- C2: the centroid produced by the incremental-mean fold equals the
arithmetic mean of all member embeddings (under exact arithmetic), and is
invariant under permuting the order in which the members are folded. -/
theorem centroid_eq_mean :
    (∀ (first : List ℚ) (rest : List (List ℚ)),
        (∀ e ∈ rest, e.length = first.length) →
        (foldCentroid first rest).1
          = (vecSum first rest).map (fun x => x / (((rest.length + 1 : ℕ)) : ℚ)))
  ∧ (∀ (first : List ℚ) (rest : List (List ℚ)) (first2 : List ℚ) (rest2 : List (List ℚ)),
        (∀ e ∈ rest, e.length = first.length) →
        (first2 :: rest2).Perm (first :: rest) →
        (foldCentroid first2 rest2).1 = (foldCentroid first rest).1) := by
  have part1 : ∀ (first : List ℚ) (rest : List (List ℚ)),
      (∀ e ∈ rest, e.length = first.length) →
      (foldCentroid first rest).1
        = (vecSum first rest).map (fun x => x / (((rest.length + 1 : ℕ)) : ℚ)) := by
    intro first rest hlen
    have hbase : (first.map (fun x => x / ((1 : ℕ) : ℚ))) = first := by
      simp
    have := foldCentroid_inv rest first 1 one_ne_zero hlen
    rw [hbase] at this
    unfold foldCentroid
    rw [this]
    have hnat : (1 : ℕ) + rest.length = rest.length + 1 := by omega
    rw [hnat]
  refine ⟨part1, ?_⟩
  intro first rest first2 rest2 hlen hperm
  have hmem : ∀ e ∈ first2 :: rest2, e.length = first.length := by
    intro e he
    have : e ∈ first :: rest := hperm.mem_iff.mp he
    rcases List.mem_cons.mp this with rfl | h
    · rfl
    · exact hlen e h
  have hlen2 : ∀ e ∈ rest2, e.length = first2.length := by
    intro e he
    rw [hmem e (List.mem_cons_of_mem _ he), ← hmem first2 (List.mem_cons_self _ _)]
  have hfirst2 : first2.length = first.length := hmem first2 (List.mem_cons_self _ _)
  rw [part1 first rest hlen, part1 first2 rest2 hlen2]
  have hlength : rest2.length = rest.length := by
    have := hperm.length_eq
    simpa using this
  rw [hlength]
  have hsum : vecSum first2 rest2 = vecSum first rest := by
    rw [vecSum_zero_base, vecSum_zero_base, hfirst2]
    exact hperm.foldl_eq' (fun x _ y _ z => zipWith_add_rightComm z x y) _
  rw [hsum]

/-- Witness for C2: folding `[3]` into a cluster created from `[1]` yields the
mean `[2]` of the two embeddings. -/
theorem centroid_eq_mean_witness :
    (∀ e ∈ [[(3 : ℚ)]], e.length = [(1 : ℚ)].length) ∧
      (foldCentroid [(1 : ℚ)] [[(3 : ℚ)]]).1
        = (vecSum [(1 : ℚ)] [[(3 : ℚ)]]).map
            (fun x => x / ((([[(3 : ℚ)]].length + 1 : ℕ)) : ℚ)) :=
  ⟨by decide, centroid_eq_mean.1 [(1 : ℚ)] [[(3 : ℚ)]] (by decide)⟩

/-! ### Key-phrase extraction and keyword overlap (index.ts 1448-1546) -/

/-- Substring occurrence over character lists. -/
def containsList (needle : List Char) : List Char → Bool
  | [] => needle.isEmpty
  | c :: rest => needle.isPrefixOf (c :: rest) || containsList needle rest

/-- JS `String.includes` over character lists. -/
def containsSub (hay : List Char) (needle : String) : Bool :=
  containsList needle.toList hay

/-- JS `String.trim` on a matched phrase. -/
def trimChars (l : List Char) : List Char :=
  ((l.dropWhile isSpaceChar).reverse.dropWhile isSpaceChar).reverse

/-- The `patterns` array of `extractKeyPhrases` (index.ts 1453-1482), in
order. -/
def keyPhrasePatterns : List RE := [
  reSeq [litS "login", sP, wP],
  reSeq [litS "billing", sP, wP],
  reSeq [litS "payment", sP, wP],
  .cat (litS "crash") wS,
  reSeq [litS "error", sP, dP],
  reSeq [.wb, alts [lit (withApo "can" "t"), litS "cannot", lit (withApo "won" "t")], sP, wP],
  reSeq [litS "dark", sP, litS "mode"],
  reSeq [litS "rate", sP, litS "limit"],
  reSeq [dP, sP, litS "error"],
  reSeq [litS "login", sP, litS "crash"],
  reSeq [litS "login", sP, litS "bug"],
  reSeq [litS "billing", sP, litS "page"],
  reSeq [litS "payment", sP, litS "failed"],
  reSeq [litS "theme", sP, wP],
  reSeq [litS "toggle", sP, wP],
  reSeq [litS "dark", sP, litS "mode", sP, wS],
  reSeq [litS "resume", sP, litS "crash"],
  reSeq [litS "background", sP, wP],
  reSeq [litS "foreground", sP, wP],
  reSeq [litS "force", sP, litS "close"],
  reSeq [litS "double", sP, litS "login"],
  reSeq [litS "login", sP, litS "twice"],
  reSeq [litS "second", sP, litS "login"],
  reSeq [litS "first", sP, litS "login"],
  reSeq [lit ['2'], sP, litS "attempts"]
]

/-- The `extractKeyPhrases` closure (index.ts 1448-1504): all global pattern
matches (trimmed), plus the normalized `theme_bug` and `resume_crash` keys.
The source collects the phrases in a JS `Set`; a list models it here, which
leaves intersection-nonemptiness unchanged. -/
def extractKeyPhrases (text : List Char) : List (List Char) :=
  let lower := text.map Char.toLower
  let fromPatterns := keyPhrasePatterns.flatMap (fun re => (reFindAll re lower).map trimChars)
  let themeBug :=
    if (containsSub lower "theme" || containsSub lower "dark mode" || containsSub lower "toggle")
        && (containsSub lower "broken" || containsSub lower "not working"
          || containsList (withApo "doesn" "t") lower || containsSub lower "fails"
          || containsSub lower "no change") then
      ["theme_bug".toList]
    else []
  let resumeCrash :=
    if (containsSub lower "resume" || containsSub lower "background"
        || containsSub lower "foreground" || containsSub lower "recents")
        && containsSub lower "crash" then
      ["resume_crash".toList]
    else []
  fromPatterns ++ themeBug ++ resumeCrash

/-- The stop-word list of the keyword-overlap fallback (index.ts 1530). -/
def stopWords : List String :=
  ["the", "this", "that", "with", "from", "when", "will", "need", "very", "can", "cant",
   "not", "and", "are", "for", "has", "have", "was", "were", "all", "but", "get", "got"]

/-- Maximal runs of word characters, i.e. the nonempty fragments of a JS
`split(/\W+/)` (the possible leading empty fragment of the JS split has
length 0 and is discarded by the length filter below anyway). -/
def wordGroupsAux : List Char → List Char → List (List Char)
  | [], acc => if acc.isEmpty then [] else [acc.reverse]
  | c :: rest, acc =>
    if isWordChar c then wordGroupsAux rest (c :: acc)
    else if acc.isEmpty then wordGroupsAux rest []
    else acc.reverse :: wordGroupsAux rest []

/-- JS `text.split(/\W+/)` restricted to its nonempty fragments. -/
def wordGroups (l : List Char) : List (List Char) := wordGroupsAux l []

/-- Significant words of a text: length > 2 and not a stop word
(index.ts 1531-1536). -/
def significantWords (text : List Char) : List (List Char) :=
  (wordGroups text).filter (fun w => decide (w.length > 2) && !(stopWords.any (fun sw => sw.toList == w)))

/-! ### The data model -/

/-- The classification produced by the external intelligence collaborator
(`classifyFeedback`); only the fields the clustering logic reads. -/
structure Classification where
  severity : String
  category : String
deriving DecidableEq

/-- A feedback item (interface `Feedback`, index.ts 8-15, plus the row id and
timestamp the clustering loop reads). -/
structure Feedback where
  id : String
  content : String
  source : String
  timestamp : ℚ
deriving DecidableEq

/-- A cluster (interface `Cluster`, index.ts 25-51). Optional TS fields are
`Option`; `priority_score` lives in `ℝ` because the priority formula takes a
logarithm. -/
structure Cluster where
  cluster_id : String
  category : String
  severity : String
  centroid : List ℚ
  count : ℕ
  first_seen : ℚ
  last_seen : ℚ
  representative_feedback_id : String
  representative_feedback : String
  summary : String
  suggested_action : String
  user_impact : String
  priority_score : ℝ
  sentiment_score : ℚ
  top_sources : List String
  fix_status : Option String
  fix_deployed_date : Option ℚ
  fix_deployed_version : Option String
  rollout_period_days : Option ℕ
  original_severity : Option String
  current_severity : Option String
  reports_before_fix : Option ℕ
  reports_after_fix : Option ℕ
  fix_notes : Option String

/-- JS `a || b` for an optional string (`none` and the empty string are
falsy). -/
def jsOrStr (o : Option String) (d : String) : String :=
  match o with
  | some s => if s = "" then d else s
  | none => d

/-- JS `a || b` for an optional natural number (`none` and `0` are falsy). -/
def jsOrNat (o : Option ℕ) (d : ℕ) : ℕ :=
  match o with
  | some n => if n = 0 then d else n
  | none => d

/-- JS `a || b` for an optional rational (`none` and `0` are falsy). -/
def jsOrQ (o : Option ℚ) (d : ℚ) : ℚ :=
  match o with
  | some x => if x = 0 then d else x
  | none => d

/-- JS truthiness of an optional numeric field (`none` and `0` are falsy). -/
def jsTruthyNum (o : Option ℚ) : Bool :=
  match o with
  | some x => decide (x ≠ 0)
  | none => false

/-! ### The similarity matcher (index.ts 1414-1548) -/

/-- The clustering similarity threshold (config.example.ts: 0.86). -/
def similarityThreshold : ℚ := 0.86

/-- The skip guard of both matching tiers (index.ts 1425, 1508): a singleton
cluster whose representative text satisfies the user-specific predicate. -/
def isUserSpecificCluster (c : Cluster) : Bool :=
  c.count == 1 && isUserSpecificFeedback c.representative_feedback

/-- The embedding tier (index.ts 1421-1439): first cluster, in list order,
that is not a user-specific singleton, has a centroid with some nonzero
component, and whose cosine similarity with the new embedding strictly
exceeds the threshold. -/
noncomputable def findEmbeddingMatch (embedding : List ℚ) : List Cluster → Option Cluster
  | [] => none
  | c :: rest =>
    if isUserSpecificCluster c then findEmbeddingMatch embedding rest
    else if c.centroid.any (fun v => decide (v ≠ 0)) then
      if cosineSimilarity (embedding.map (fun q => (q : ℝ))) (c.centroid.map (fun q => (q : ℝ)))
          > ((similarityThreshold : ℚ) : ℝ) then some c
      else findEmbeddingMatch embedding rest
    else findEmbeddingMatch embedding rest

/-- Tier 2a (index.ts 1514-1523): key-phrase intersection with a candidate's
representative text. -/
def phraseMatch (feedbackLower : List Char) (c : Cluster) : Bool :=
  let clusterLower := jsToLower c.representative_feedback
  let feedbackPhrases := extractKeyPhrases feedbackLower
  let clusterPhrases := extractKeyPhrases clusterLower
  feedbackPhrases.any (fun p => clusterPhrases.any (fun q => q == p))

/-- Tier 2b (index.ts 1525-1546): same category and severity, and at least
one shared significant word. -/
def keywordMatch (feedbackLower : List Char) (classification : Classification) (c : Cluster) : Bool :=
  if c.category == classification.category && c.severity == classification.severity then
    let feedbackWords := significantWords feedbackLower
    let clusterWords := significantWords (jsToLower c.representative_feedback)
    feedbackWords.any (fun w => clusterWords.any (fun v => v == w))
  else false

/-- The text-heuristic fallback tier (index.ts 1506-1547): first candidate,
in list order, that is not a user-specific singleton and satisfies the phrase
match or the keyword match. -/
def findTextMatch (feedbackLower : List Char) (classification : Classification) :
    List Cluster → Option Cluster
  | [] => none
  | c :: rest =>
    if isUserSpecificCluster c then findTextMatch feedbackLower classification rest
    else if phraseMatch feedbackLower c then some c
    else if keywordMatch feedbackLower classification c then some c
    else findTextMatch feedbackLower classification rest

/-- The full similarity matcher (index.ts 1414-1548): the embedding tier runs
only when the new embedding has a nonzero component; the text tier runs when
the embedding tier produced no match. -/
noncomputable def findMatch (embedding : List ℚ) (content : String)
    (classification : Classification) (clusters : List Cluster) : Option Cluster :=
  let hasValidEmbedding := embedding.any (fun v => decide (v ≠ 0))
  let embMatched := if hasValidEmbedding then findEmbeddingMatch embedding clusters else none
  match embMatched with
  | some c => some c
  | none => findTextMatch (jsToLower content) classification clusters

/-- The embedding tier never returns a user-specific singleton. -/
lemma findEmbeddingMatch_not_userSpecific (embedding : List ℚ) (clusters : List Cluster) :
    Option.all (fun c => !isUserSpecificCluster c) (findEmbeddingMatch embedding clusters) = true := by
  induction clusters with
  | nil => rfl
  | cons c rest ih =>
    unfold findEmbeddingMatch
    split_ifs with h1 h2 h3 <;> simp_all [Option.all]

/-- The text tier never returns a user-specific singleton. -/
lemma findTextMatch_not_userSpecific (feedbackLower : List Char)
    (classification : Classification) (clusters : List Cluster) :
    Option.all (fun c => !isUserSpecificCluster c)
      (findTextMatch feedbackLower classification clusters) = true := by
  induction clusters with
  | nil => rfl
  | cons c rest ih =>
    unfold findTextMatch
    split_ifs with h1 h2 h3 <;> simp_all [Option.all]

/-- C3: no tier of the matcher — embedding similarity, phrase intersection, or
category-and-severity keyword overlap — ever selects a singleton cluster whose
representative text satisfies the user-specific predicate, for any embedding,
text, classification and candidate set. -/
theorem userSpecific_never_matched (embedding : List ℚ) (content : String)
    (classification : Classification) (clusters : List Cluster) :
    Option.all (fun c => !isUserSpecificCluster c) (findEmbeddingMatch embedding clusters) = true
  ∧ Option.all (fun c => !isUserSpecificCluster c)
      (findTextMatch (jsToLower content) classification clusters) = true
  ∧ Option.all (fun c => !isUserSpecificCluster c)
      (findMatch embedding content classification clusters) = true := by
  refine ⟨findEmbeddingMatch_not_userSpecific embedding clusters,
    findTextMatch_not_userSpecific (jsToLower content) classification clusters, ?_⟩
  unfold findMatch
  dsimp only
  split_ifs with h1
  · cases hE : findEmbeddingMatch embedding clusters with
    | none => exact findTextMatch_not_userSpecific (jsToLower content) classification clusters
    | some c =>
      have := findEmbeddingMatch_not_userSpecific embedding clusters
      rw [hE] at this
      exact this
  · exact findTextMatch_not_userSpecific (jsToLower content) classification clusters

/-! ### C4: the user-specific predicate on first-person experiential phrasing

The source lowercases the text (index.ts 1222) and then tests the
case-sensitive patterns `/\bI\s+(am|was|...)\b/`, `/\bI\s+(was|got)\s+.../`,
and the catch-all `/\b(my|I)\s+.../` against the lowercased string, so the
alternatives containing the capital letter `I` can never match. The theorem
below evaluates the predicate at a text with first-person experiential
phrasing plus an account-scoped noun; the spec requires `true`, the code
returns `false`. -/

/-- C4: at the failing input "I was charged for the subscription" — first
person experiential phrasing ("I was charged") combined with an account-scoped
noun ("subscription") — the predicate returns false, because every rule-1
pattern containing the literal `I` is matched against the lowercased text.
The same input with the possessive "my subscription" returns true, showing
rule 1 itself is reachable. -/
theorem isUserSpecificFeedback_capitalI_dead :
    isUserSpecificFeedback "I was charged for the subscription" = false
  ∧ isUserSpecificFeedback "I was charged for my subscription" = true := by
  constructor <;> decide

/-! ### The cluster aggregation pass (`clusterFeedbacksWithEmbeddings`,
index.ts 1336-1647)

The external collaborators are parameters: `classify` and `embed` stand for
`classifyFeedback`/`generateEmbedding` (pure functions of the text for the
duration of one pass), and the fresh-id supply `uuids` stands for
`crypto.randomUUID()`. The database writes are mirrored in the returned
state. -/

/-- The mutable state of one pass: the in-memory cluster list, the
`cluster_members` relation, the remaining fresh ids, and the per-pass
`processed` set. -/
structure PassState where
  clusters : List Cluster
  members : List (String × String)
  uuids : List String
  processed : List String

/-- The cluster object built for a brand-new cluster (index.ts 1367-1383 and
1595-1611, whose fields coincide): count 1, the item's embedding as the
centroid verbatim, the item as representative, fix fields unset. -/
def newClusterFromFeedback (clusterId : String) (classification : Classification)
    (embedding : List ℚ) (feedback : Feedback) : Cluster :=
  { cluster_id := clusterId
    category := classification.category
    severity := classification.severity
    centroid := embedding
    count := 1
    first_seen := feedback.timestamp
    last_seen := feedback.timestamp
    representative_feedback_id := feedback.id
    representative_feedback := feedback.content
    summary := ""
    suggested_action := ""
    user_impact := ""
    priority_score := 0
    sentiment_score := 0.5
    top_sources := [feedback.source]
    fix_status := none
    fix_deployed_date := none
    fix_deployed_version := none
    rollout_period_days := none
    original_severity := none
    current_severity := none
    reports_before_fix := none
    reports_after_fix := none
    fix_notes := none }

/-- Membership insertion guarded by an existence check
(index.ts 1567-1576, 1631-1640): inserting an existing pair is a no-op. -/
def addMembershipIdempotent (members : List (String × String))
    (clusterId feedbackId : String) : List (String × String) :=
  if (clusterId, feedbackId) ∈ members then members else members ++ [(clusterId, feedbackId)]

/-- One iteration of the clustering loop (index.ts 1347-1644) for one
feedback item: skip items already processed in this pass or already present
in `cluster_members` (frozen at pass start as `alreadyClustered`); put
user-specific items in a fresh singleton cluster with an unconditional
membership insert; otherwise match via `findMatch` and either merge into the
matched cluster or create a fresh one. -/
noncomputable def clusterStep (classify : String → Classification) (embed : String → List ℚ)
    (alreadyClustered : List String) (st : PassState) (feedback : Feedback) : PassState :=
  if feedback.id ∈ st.processed then st
  else if feedback.id ∈ alreadyClustered then
    { st with processed := feedback.id :: st.processed }
  else if isUserSpecificFeedback feedback.content then
    let classification := classify feedback.content
    let embedding := embed feedback.content
    let clusterId := st.uuids.headD ""
    let newCluster := newClusterFromFeedback clusterId classification embedding feedback
    { clusters := st.clusters ++ [newCluster]
      members := st.members ++ [(clusterId, feedback.id)]
      uuids := st.uuids.tail
      processed := feedback.id :: st.processed }
  else
    let embedding := embed feedback.content
    match findMatch embedding feedback.content (classify feedback.content) st.clusters with
    | some m =>
      let newCount := m.count + 1
      let updated := { m with
        count := newCount
        last_seen := max m.last_seen feedback.timestamp
        top_sources :=
          if feedback.source ∈ m.top_sources then m.top_sources
          else m.top_sources ++ [feedback.source]
        centroid :=
          if embedding.length = m.centroid.length then centroidMerge m.centroid newCount embedding
          else m.centroid }
      { st with
        clusters := st.clusters.map (fun c => if c.cluster_id = m.cluster_id then updated else c)
        members := addMembershipIdempotent st.members m.cluster_id feedback.id
        processed := feedback.id :: st.processed }
    | none =>
      let classification := classify feedback.content
      let clusterId := st.uuids.headD ""
      let newCluster := newClusterFromFeedback clusterId classification embedding feedback
      { clusters := st.clusters ++ [newCluster]
        members := addMembershipIdempotent st.members clusterId feedback.id
        uuids := st.uuids.tail
        processed := feedback.id :: st.processed }

/-- The clustering pass (index.ts 1336-1647): freeze the set of
already-clustered feedback ids, then fold the batch through `clusterStep`. -/
noncomputable def clusterFeedbacksWithEmbeddings (classify : String → Classification)
    (embed : String → List ℚ) (existingClusters : List Cluster)
    (members : List (String × String)) (uuids : List String)
    (feedbacks : List Feedback) : PassState :=
  let alreadyClustered := members.map Prod.snd
  feedbacks.foldl (clusterStep classify embed alreadyClustered)
    { clusters := existingClusters, members := members, uuids := uuids, processed := [] }

/-- Folding items whose ids are all already clustered changes nothing except
the per-pass processed set. -/
lemma clusterStep_fold_skips (classify : String → Classification) (embed : String → List ℚ)
    (alreadyClustered : List String) :
    ∀ (feedbacks : List Feedback) (st : PassState),
      (∀ f ∈ feedbacks, f.id ∈ alreadyClustered) →
      (feedbacks.foldl (clusterStep classify embed alreadyClustered) st).clusters = st.clusters
      ∧ (feedbacks.foldl (clusterStep classify embed alreadyClustered) st).members = st.members
      ∧ (feedbacks.foldl (clusterStep classify embed alreadyClustered) st).uuids = st.uuids := by
  intro feedbacks
  induction feedbacks with
  | nil => intro st _; exact ⟨rfl, rfl, rfl⟩
  | cons f rest ih =>
    intro st hall
    have hf : f.id ∈ alreadyClustered := hall f (List.mem_cons_self _ _)
    have hrest : ∀ g ∈ rest, g.id ∈ alreadyClustered :=
      fun g hg => hall g (List.mem_cons_of_mem _ hg)
    simp only [List.foldl_cons]
    have hstep : (clusterStep classify embed alreadyClustered st f).clusters = st.clusters
        ∧ (clusterStep classify embed alreadyClustered st f).members = st.members
        ∧ (clusterStep classify embed alreadyClustered st f).uuids = st.uuids := by
      unfold clusterStep
      by_cases h1 : f.id ∈ st.processed
      · rw [if_pos h1]; exact ⟨rfl, rfl, rfl⟩
      · rw [if_neg h1, if_pos hf]; exact ⟨rfl, rfl, rfl⟩
    obtain ⟨hc, hm, hu⟩ := hstep
    have := ih (clusterStep classify embed alreadyClustered st f) hrest
    rw [hc, hm, hu] at this
    exact this

/-- C7: re-processing a batch whose items are all already recorded in
`cluster_members` is a no-op: no membership is inserted, no cluster is
created, and every cluster's state (count, centroid, ...) is unchanged. -/
theorem clusterPass_idempotent (classify : String → Classification)
    (embed : String → List ℚ) (existingClusters : List Cluster)
    (members : List (String × String)) (uuids : List String)
    (feedbacks : List Feedback)
    (halready : ∀ f ∈ feedbacks, f.id ∈ members.map Prod.snd) :
    (clusterFeedbacksWithEmbeddings classify embed existingClusters members uuids
        feedbacks).clusters = existingClusters
    ∧ (clusterFeedbacksWithEmbeddings classify embed existingClusters members uuids
        feedbacks).members = members
    ∧ (clusterFeedbacksWithEmbeddings classify embed existingClusters members uuids
        feedbacks).uuids = uuids := by
  unfold clusterFeedbacksWithEmbeddings
  exact clusterStep_fold_skips classify embed (members.map Prod.snd) feedbacks
    { clusters := existingClusters, members := members, uuids := uuids, processed := [] }
    halready

/-- A fixed classification collaborator for concrete instances. -/
def classifyDefault : String → Classification :=
  fun _ => { severity := "P2", category := "other" }

/-- A degraded embedding collaborator for concrete instances. -/
def embedZero : String → List ℚ := fun _ => []

/-- A concrete feedback item whose membership is already recorded. -/
def fbAlready : Feedback :=
  { id := "f1", content := "app crashes on resume", source := "support", timestamp := 0 }

/-- Witness for C7: one feedback item whose membership is already recorded. -/
theorem clusterPass_idempotent_witness :
    (∀ f ∈ [fbAlready], f.id ∈ ([("c1", "f1")].map Prod.snd))
    ∧ (clusterFeedbacksWithEmbeddings classifyDefault embedZero [] [("c1", "f1")] []
        [fbAlready]).members = [("c1", "f1")] :=
  ⟨by decide,
    (clusterPass_idempotent classifyDefault embedZero [] [("c1", "f1")] [] [fbAlready]
      (by decide)).2.1⟩

/-! ### The fix lifecycle evaluation (`generateMorningDigest`, index.ts 992-1025) -/

/-- One digest-pass fix-lifecycle evaluation of one cluster
(index.ts 992-1025). For a cluster with a deployed fix (truthy
`fix_deployed_date`): past the rollout window, compare the weekly average of
`reports_before_fix || count` against the rollout-window average of
`reports_after_fix || 0` and transition to `resolved` or `failed` (restoring
`original_severity || severity`); inside the window, increment
`reports_after_fix` by exactly one. -/
def evaluateFixStatus (now : ℚ) (c : Cluster) : Cluster :=
  if c.fix_status = some "fix_deployed" ∧ jsTruthyNum c.fix_deployed_date = true then
    let daysSinceFix := (now - c.fix_deployed_date.getD 0) / 86400000
    let rolloutDays := jsOrNat c.rollout_period_days 7
    if daysSinceFix > (rolloutDays : ℚ) then
      let avgBeforeFix := ((jsOrNat c.reports_before_fix c.count : ℕ) : ℚ) / 7
      let avgAfterFix := ((jsOrNat c.reports_after_fix 0 : ℕ) : ℚ) / (rolloutDays : ℚ)
      if avgAfterFix < avgBeforeFix * 0.2 then
        { c with fix_status := some "resolved" }
      else
        { c with fix_status := some "failed",
                 current_severity := some (jsOrStr c.original_severity c.severity) }
    else
      { c with reports_after_fix := some (jsOrNat c.reports_after_fix 0 + 1) }
  else c

/-- A fix-deployed cluster past its rollout window whose
`reports_before_fix` column holds the falsy value 0. -/
def fixCexCluster : Cluster :=
  { cluster_id := "c1", category := "bug", severity := "P1", centroid := [1],
    count := 5, first_seen := 0, last_seen := 0,
    representative_feedback_id := "f1", representative_feedback := "app crashes",
    summary := "", suggested_action := "", user_impact := "",
    priority_score := 0, sentiment_score := 0.5, top_sources := ["support"],
    fix_status := some "fix_deployed", fix_deployed_date := some 86400000,
    fix_deployed_version := none, rollout_period_days := some 7,
    original_severity := some "P1", current_severity := some "P3",
    reports_before_fix := some 0, reports_after_fix := some 0,
    fix_notes := none }

/-- C5 (counterexample): on `fixCexCluster` (past its window,
`reports_before_fix = 0`, `reports_after_fix = 0`) the code transitions to
`resolved` (the falsy field falls back to the member count 5), while the
claimed formula `after/rollout < 0.2 * (before/7)` is false at
`0/7 < 0.2 * (0/7)`, i.e. the claim as stated demands `failed`. -/
theorem fix_lifecycle_cex :
    (evaluateFixStatus (9 * 86400000) fixCexCluster).fix_status = some "resolved"
    ∧ ¬(((0 : ℚ) / 7) < 0.2 * ((0 : ℚ) / 7)) := by
  constructor
  · norm_num [evaluateFixStatus, fixCexCluster, jsTruthyNum, jsOrNat, jsOrStr]
  · norm_num

/-- C5 (amended): a fix-deployed cluster with a truthy deployment date whose
rollout window has elapsed transitions in one pass to exactly one of
`resolved`/`failed` — `resolved` iff
`(reports_after_fix || 0)/rollout < ((reports_before_fix || count)/7) * 0.2`
with the source's falsy fallbacks — never staying `fix_deployed`; on `failed`
the current severity is restored to `original_severity || severity`. -/
theorem fix_lifecycle_transition (now : ℚ) (c : Cluster)
    (hs : c.fix_status = some "fix_deployed")
    (hd : jsTruthyNum c.fix_deployed_date = true)
    (hw : (now - c.fix_deployed_date.getD 0) / 86400000 > ((jsOrNat c.rollout_period_days 7 : ℕ) : ℚ)) :
    ((evaluateFixStatus now c).fix_status = some "resolved"
      ∨ (evaluateFixStatus now c).fix_status = some "failed")
    ∧ ((evaluateFixStatus now c).fix_status = some "resolved" ↔
        ((jsOrNat c.reports_after_fix 0 : ℕ) : ℚ) / ((jsOrNat c.rollout_period_days 7 : ℕ) : ℚ)
          < ((jsOrNat c.reports_before_fix c.count : ℕ) : ℚ) / 7 * 0.2)
    ∧ ((evaluateFixStatus now c).fix_status ≠ some "fix_deployed")
    ∧ ((evaluateFixStatus now c).fix_status = some "failed" →
        (evaluateFixStatus now c).current_severity
          = some (jsOrStr c.original_severity c.severity)) := by
  unfold evaluateFixStatus
  rw [if_pos ⟨hs, hd⟩]
  dsimp only
  rw [if_pos hw]
  split_ifs with h
  · refine ⟨Or.inl rfl, ⟨fun _ => h, fun _ => rfl⟩, by simp, ?_⟩
    intro hfail
    simp at hfail
  · refine ⟨Or.inr rfl, ⟨?_, fun hlt => absurd hlt h⟩, by simp, fun _ => rfl⟩
    intro hres
    simp at hres

/-- A fix-deployed cluster past its rollout window with a sustained post-fix
report volume. -/
def fixWindowElapsedCluster : Cluster :=
  { cluster_id := "c1", category := "bug", severity := "P1", centroid := [1],
    count := 5, first_seen := 0, last_seen := 0,
    representative_feedback_id := "f1", representative_feedback := "app crashes",
    summary := "", suggested_action := "", user_impact := "",
    priority_score := 0, sentiment_score := 0.5, top_sources := ["support"],
    fix_status := some "fix_deployed", fix_deployed_date := some 86400000,
    fix_deployed_version := none, rollout_period_days := some 7,
    original_severity := some "P1", current_severity := some "P3",
    reports_before_fix := some 7, reports_after_fix := some 7,
    fix_notes := none }

/-- Witness for C5: a cluster past its window leaves the `fix_deployed`
state. -/
theorem fix_lifecycle_transition_witness :
    fixWindowElapsedCluster.fix_status = some "fix_deployed"
    ∧ ((evaluateFixStatus (9 * 86400000) fixWindowElapsedCluster).fix_status = some "resolved"
      ∨ (evaluateFixStatus (9 * 86400000) fixWindowElapsedCluster).fix_status = some "failed") :=
  ⟨rfl,
    (fix_lifecycle_transition (9 * 86400000) fixWindowElapsedCluster rfl
      (by simp [fixWindowElapsedCluster, jsTruthyNum])
      (by norm_num [fixWindowElapsedCluster, jsOrNat])).1⟩

/-- C6: a fix-deployed cluster with a truthy deployment date still inside its
rollout window gets `reports_after_fix` incremented by exactly one in one
evaluation (the digest pass applies `evaluateFixStatus` once per cluster,
independent of how many reports matched the cluster during the pass), and no
other lifecycle field changes. -/
theorem fix_in_rollout_increment (now : ℚ) (c : Cluster)
    (hs : c.fix_status = some "fix_deployed")
    (hd : jsTruthyNum c.fix_deployed_date = true)
    (hw : ¬((now - c.fix_deployed_date.getD 0) / 86400000
        > ((jsOrNat c.rollout_period_days 7 : ℕ) : ℚ))) :
    (evaluateFixStatus now c).reports_after_fix = some (jsOrNat c.reports_after_fix 0 + 1)
    ∧ (evaluateFixStatus now c).fix_status = c.fix_status
    ∧ (evaluateFixStatus now c).count = c.count
    ∧ (evaluateFixStatus now c).centroid = c.centroid
    ∧ (evaluateFixStatus now c).current_severity = c.current_severity := by
  unfold evaluateFixStatus
  rw [if_pos ⟨hs, hd⟩]
  dsimp only
  rw [if_neg hw]
  exact ⟨rfl, rfl, rfl, rfl, rfl⟩

/-- A fix-deployed cluster three days into a seven-day rollout window. -/
def fixInRolloutCluster : Cluster :=
  { cluster_id := "c1", category := "bug", severity := "P1", centroid := [1],
    count := 5, first_seen := 0, last_seen := 0,
    representative_feedback_id := "f1", representative_feedback := "app crashes",
    summary := "", suggested_action := "", user_impact := "",
    priority_score := 0, sentiment_score := 0.5, top_sources := ["support"],
    fix_status := some "fix_deployed", fix_deployed_date := some 86400000,
    fix_deployed_version := none, rollout_period_days := some 7,
    original_severity := some "P1", current_severity := some "P3",
    reports_before_fix := some 7, reports_after_fix := some 2,
    fix_notes := none }

/-- Witness for C6: three days into a seven-day rollout, the post-fix report
counter goes from 2 to 3. -/
theorem fix_in_rollout_increment_witness :
    fixInRolloutCluster.fix_status = some "fix_deployed"
    ∧ (evaluateFixStatus (4 * 86400000) fixInRolloutCluster).reports_after_fix = some (2 + 1) :=
  ⟨rfl,
    (fix_in_rollout_increment (4 * 86400000) fixInRolloutCluster rfl
      (by simp [fixInRolloutCluster, jsTruthyNum])
      (by norm_num [fixInRolloutCluster, jsOrNat])).1⟩

/-! ### The priority scorer (`calculatePriorityScore`, index.ts 1698-1731)

The default weights are the values of `config.example.ts`. -/

/-- Default severity weight (config.example.ts). -/
noncomputable def severityWeight : ℝ := 0.55

/-- Default frequency weight (config.example.ts). -/
noncomputable def frequencyWeight : ℝ := 0.25

/-- Default recency weight (config.example.ts). -/
noncomputable def recencyWeight : ℝ := 0.10

/-- Default sentiment weight (config.example.ts). -/
noncomputable def sentimentWeight : ℝ := 0.10

/-- Effective severity selection (index.ts 1701-1708): `current_severity`
when a fix is deployed and the field is truthy, `original_severity ||
severity` when the fix failed, the cluster severity otherwise. -/
def effectiveSeverity (c : Cluster) : String :=
  if c.fix_status = some "fix_deployed" ∧ c.current_severity.getD "" ≠ "" then
    c.current_severity.getD ""
  else if c.fix_status = some "failed" then
    jsOrStr c.original_severity c.severity
  else c.severity

/-- The severity map lookup with its `|| 50` default (index.ts 1711-1712). -/
noncomputable def severityScoreOf (s : String) : ℝ :=
  if s = "P0" then 100 else if s = "P1" then 75
  else if s = "P2" then 50 else if s = "P3" then 25 else 50

/-- The weighted priority score (index.ts 1698-1731); `now` stands for
`Date.now()`. -/
noncomputable def calculatePriorityScore (now : ℚ) (cluster : Cluster) : ℝ :=
  let severityScore := severityScoreOf (effectiveSeverity cluster)
  let frequencyScore := min 100 (Real.logb 10 ((cluster.count : ℝ) + 1) * 50)
  let hoursSinceLastSeen := (((now - cluster.last_seen) : ℚ) : ℝ) / 3600000
  let recencyScore := max 0 (100 - hoursSinceLastSeen * 2)
  let negativityScore := 100 - (cluster.sentiment_score : ℝ) * 100
  severityScore * severityWeight + frequencyScore * frequencyWeight +
    recencyScore * recencyWeight + negativityScore * sentimentWeight

/-- Severity rank: position of the label in P0 (most urgent) … P3. -/
def severityRank : String → ℕ
  | "P0" => 0
  | "P1" => 1
  | "P2" => 2
  | _ => 3

/-- The severity lookup is antitone in the rank on the four labels. -/
lemma severityScoreOf_rank_mono (s t : String)
    (hs : s ∈ ["P0", "P1", "P2", "P3"]) (ht : t ∈ ["P0", "P1", "P2", "P3"])
    (h : severityRank s ≤ severityRank t) :
    severityScoreOf t ≤ severityScoreOf s := by
  fin_cases hs <;> fin_cases ht <;>
    simp_all [severityRank, severityScoreOf] <;> norm_num

/-- Changing only the `severity` field commutes with the effective-severity
selection in the expected way. -/
lemma effectiveSeverity_set_severity (c : Cluster) (x : String) :
    effectiveSeverity { c with severity := x }
      = if c.fix_status = some "fix_deployed" ∧ c.current_severity.getD "" ≠ "" then
          c.current_severity.getD ""
        else if c.fix_status = some "failed" then jsOrStr c.original_severity x
        else x := rfl

/-- Severity-field monotonicity of the effective severity lookup. -/
lemma severityScoreOf_effective_mono (c : Cluster) (s t : String)
    (hs : s ∈ ["P0", "P1", "P2", "P3"]) (ht : t ∈ ["P0", "P1", "P2", "P3"])
    (h : severityRank s ≤ severityRank t) :
    severityScoreOf (effectiveSeverity { c with severity := t })
      ≤ severityScoreOf (effectiveSeverity { c with severity := s }) := by
  rw [effectiveSeverity_set_severity, effectiveSeverity_set_severity]
  split_ifs with h1 h2
  · exact le_refl _
  · unfold jsOrStr
    cases horig : c.original_severity with
    | none => exact severityScoreOf_rank_mono s t hs ht h
    | some v =>
      dsimp only
      split_ifs with hv
      · exact severityScoreOf_rank_mono s t hs ht h
      · exact le_refl _
  · exact severityScoreOf_rank_mono s t hs ht h

/-- C9: with the default non-negative weights, the priority score is
non-increasing in the severity rank (a P0 cluster scores at least a P1
cluster, and so on, all other attributes equal) and non-decreasing in the
member count. -/
theorem priorityScore_monotone :
    (∀ (now : ℚ) (c : Cluster) (s t : String),
        s ∈ ["P0", "P1", "P2", "P3"] → t ∈ ["P0", "P1", "P2", "P3"] →
        severityRank s ≤ severityRank t →
        calculatePriorityScore now { c with severity := t }
          ≤ calculatePriorityScore now { c with severity := s })
    ∧ (∀ (now : ℚ) (c : Cluster) (n m : ℕ),
        n ≤ m →
        calculatePriorityScore now { c with count := n }
          ≤ calculatePriorityScore now { c with count := m }) := by
  constructor
  · intro now c s t hs ht h
    unfold calculatePriorityScore
    dsimp only
    have hsev := severityScoreOf_effective_mono c s t hs ht h
    have hw : (0 : ℝ) ≤ severityWeight := by norm_num [severityWeight]
    exact add_le_add (add_le_add (add_le_add
      (mul_le_mul_of_nonneg_right hsev hw) (le_refl _)) (le_refl _)) (le_refl _)
  · intro now c n m h
    unfold calculatePriorityScore
    dsimp only
    have hfreq : min 100 (Real.logb 10 ((n : ℝ) + 1) * 50)
        ≤ min 100 (Real.logb 10 ((m : ℝ) + 1) * 50) := by
      refine min_le_min (le_refl _) ?_
      have hlog : Real.logb 10 ((n : ℝ) + 1) ≤ Real.logb 10 ((m : ℝ) + 1) :=
        Real.logb_le_logb_of_le (by norm_num) (by positivity)
          (by exact_mod_cast Nat.add_le_add_right h 1)
      nlinarith
    have hw : (0 : ℝ) ≤ frequencyWeight := by norm_num [frequencyWeight]
    exact add_le_add (add_le_add (add_le_add (le_refl _)
      (mul_le_mul_of_nonneg_right hfreq hw)) (le_refl _)) (le_refl _)

/-- A concrete open cluster for the C9 witness. -/
def scoreWitnessCluster : Cluster :=
  { cluster_id := "c1", category := "bug", severity := "P2", centroid := [1],
    count := 5, first_seen := 0, last_seen := 0,
    representative_feedback_id := "f1", representative_feedback := "app crashes",
    summary := "", suggested_action := "", user_impact := "",
    priority_score := 0, sentiment_score := 0.5, top_sources := ["support"],
    fix_status := none, fix_deployed_date := none,
    fix_deployed_version := none, rollout_period_days := none,
    original_severity := none, current_severity := none,
    reports_before_fix := none, reports_after_fix := none,
    fix_notes := none }

/-- Witness for C9: P0 scores at least P1 on a concrete cluster. -/
theorem priorityScore_monotone_witness :
    severityRank "P0" ≤ severityRank "P1"
    ∧ calculatePriorityScore 0 { scoreWitnessCluster with severity := "P1" }
        ≤ calculatePriorityScore 0 { scoreWitnessCluster with severity := "P0" } :=
  ⟨by decide,
    priorityScore_monotone.1 0 scoreWitnessCluster "P0" "P1"
      (by decide) (by decide) (by decide)⟩

/-! ### The digest assembler (index.ts 1047-1156)

The source sorts the cluster array in place (line 1048), partitions it with
`filter`, re-sorts each partition, and maps the partitions to
`PriorityIssue` records. JS `Array.sort` with the comparator
`(a, b) => b.priority_score - a.priority_score` is a stable descending sort,
modelled by a stable insertion sort. Each intermediate array of the source is
a top-level definition here, named as in the source. -/

/-- Digest cap for new issues (config.example.ts: 15). -/
def maxIssues : ℕ := 15

/-- Priority level thresholds (`getPriorityLevel`, index.ts 1733-1739, with
the config.example.ts thresholds 70/50/30). -/
noncomputable def getPriorityLevel (score : ℝ) : String :=
  if score ≥ 70 then "P0" else if score ≥ 50 then "P1"
  else if score ≥ 30 then "P2" else "P3"

/-- A ranked digest entry (interface `PriorityIssue`, index.ts 53-57). -/
structure PriorityIssue where
  priority_score : ℝ
  priority_level : String
  cluster : Cluster

/-- The `PriorityIssue` built from a cluster (index.ts 1084-1088). -/
noncomputable def mkPriorityIssue (c : Cluster) : PriorityIssue :=
  { priority_score := c.priority_score
    priority_level := getPriorityLevel c.priority_score
    cluster := c }

/-- Stable descending insertion by `priority_score`. -/
noncomputable def insertByScore (x : Cluster) : List Cluster → List Cluster
  | [] => [x]
  | y :: ys =>
    if y.priority_score < x.priority_score then x :: y :: ys else y :: insertByScore x ys

/-- Stable descending sort by `priority_score`, the model of
`sort((a, b) => b.priority_score - a.priority_score)`. -/
noncomputable def sortByScore (l : List Cluster) : List Cluster :=
  l.foldl (fun acc x => insertByScore x acc) []

/-- The positive-feedback lexical predicate (index.ts 1055-1064). -/
def isPositiveFeedback (cluster : Cluster) : Bool :=
  let feedback := jsToLower cluster.representative_feedback
  containsSub feedback "great" || containsSub feedback "love" ||
  containsSub feedback "thanks" || containsSub feedback "appreciated" ||
  containsSub feedback "good work" || containsSub feedback "excellent" ||
  containsSub feedback "improved significantly"

/-- `generalClusters` (index.ts 1051). -/
noncomputable def generalClustersOf (clusters : List Cluster) : List Cluster :=
  (sortByScore clusters).filter (fun c => decide (c.count > 1))

/-- `allSingleItemClusters` (index.ts 1066). -/
noncomputable def allSingleItemClustersOf (clusters : List Cluster) : List Cluster :=
  (sortByScore clusters).filter (fun c => c.count == 1)

/-- `individualSupportClusters` (index.ts 1067). -/
noncomputable def individualSupportClustersOf (clusters : List Cluster) : List Cluster :=
  (allSingleItemClustersOf clusters).filter (fun c => !isPositiveFeedback c)

/-- `positiveFeedbackClusters` (index.ts 1068). -/
noncomputable def positiveFeedbackClustersOf (clusters : List Cluster) : List Cluster :=
  (allSingleItemClustersOf clusters).filter (fun c => isPositiveFeedback c)

/-- `newIssues` (index.ts 1071): falsy or `open` fix status. -/
noncomputable def newIssuesOf (clusters : List Cluster) : List Cluster :=
  (generalClustersOf clusters).filter
    (fun c => c.fix_status.getD "" == "" || c.fix_status == some "open")

/-- `fixDeployed` (index.ts 1072). -/
noncomputable def fixDeployedOf (clusters : List Cluster) : List Cluster :=
  (generalClustersOf clusters).filter (fun c => c.fix_status == some "fix_deployed")

/-- `fixFailed` (index.ts 1073). -/
noncomputable def fixFailedOf (clusters : List Cluster) : List Cluster :=
  (generalClustersOf clusters).filter (fun c => c.fix_status == some "failed")

/-- `newTopIssues` (index.ts 1081-1088): capped at `maxIssues`. -/
noncomputable def newTopIssuesOf (clusters : List Cluster) : List PriorityIssue :=
  ((sortByScore (newIssuesOf clusters)).take maxIssues).map mkPriorityIssue

/-- `monitoringIssues` (index.ts 1091-1097): uncapped. -/
noncomputable def monitoringIssuesOf (clusters : List Cluster) : List PriorityIssue :=
  (sortByScore (fixDeployedOf clusters)).map mkPriorityIssue

/-- `failedFixes` (index.ts 1100-1106): uncapped. -/
noncomputable def failedFixesOf (clusters : List Cluster) : List PriorityIssue :=
  (sortByScore (fixFailedOf clusters)).map mkPriorityIssue

/-- `individualSupport` (index.ts 1112-1119): capped at 10. -/
noncomputable def individualSupportOf (clusters : List Cluster) : List PriorityIssue :=
  ((sortByScore (individualSupportClustersOf clusters)).take 10).map mkPriorityIssue

/-- `positiveSupport` (index.ts 1122-1128): uncapped. -/
noncomputable def positiveSupportOf (clusters : List Cluster) : List PriorityIssue :=
  (sortByScore (positiveFeedbackClustersOf clusters)).map mkPriorityIssue

/-- `allIssuesForDigest` (index.ts 1143-1147): new issues first, then
monitoring and failed entries not already present (cross-bucket
de-duplication by cluster id). -/
noncomputable def allIssuesForDigestOf (clusters : List Cluster) : List PriorityIssue :=
  newTopIssuesOf clusters
    ++ (monitoringIssuesOf clusters).filter
        (fun m => !((newTopIssuesOf clusters).any
          (fun t => t.cluster.cluster_id == m.cluster.cluster_id)))
    ++ (failedFixesOf clusters).filter
        (fun fx => !((newTopIssuesOf clusters).any
          (fun t => t.cluster.cluster_id == fx.cluster.cluster_id)))

/-- The output buckets of one digest (the `Digest` record of index.ts
1149-1156 plus the monitoring/failed partitions it is assembled from). -/
structure DigestBuckets where
  top_issues : List PriorityIssue
  monitoring : List PriorityIssue
  failed_fixes : List PriorityIssue
  individual_support : List PriorityIssue
  positive_feedback : List PriorityIssue

/-- The digest assembly (index.ts 1047-1156). -/
noncomputable def assembleDigest (clusters : List Cluster) : DigestBuckets :=
  { top_issues := allIssuesForDigestOf clusters
    monitoring := monitoringIssuesOf clusters
    failed_fixes := failedFixesOf clusters
    individual_support := individualSupportOf clusters
    positive_feedback := positiveSupportOf clusters }

/-- Membership in a stable insertion is membership in the parts. -/
lemma mem_insertByScore (x y : Cluster) (l : List Cluster) :
    y ∈ insertByScore x l ↔ y = x ∨ y ∈ l := by
  induction l with
  | nil => simp [insertByScore]
  | cons a l ih =>
    unfold insertByScore
    split_ifs with h
    · simp [List.mem_cons]
    · simp only [List.mem_cons, ih]
      tauto

/-- Sorting preserves membership. -/
lemma mem_sortByScore (y : Cluster) (l : List Cluster) :
    y ∈ sortByScore l ↔ y ∈ l := by
  suffices h : ∀ (l acc : List Cluster),
      (y ∈ l.foldl (fun acc x => insertByScore x acc) acc ↔ y ∈ acc ∨ y ∈ l) by
    have := h l []
    simpa [sortByScore] using this
  intro l
  induction l with
  | nil => intro acc; simp
  | cons a l ih =>
    intro acc
    simp only [List.foldl_cons, ih, mem_insertByScore, List.mem_cons]
    tauto

/-- Sorted lists draw from the input. -/
lemma sortByScore_subset (l : List Cluster) : sortByScore l ⊆ l :=
  fun _ hx => (mem_sortByScore _ l).mp hx

/-- The cluster of an entry built by `mkPriorityIssue` over a list. -/
lemma mem_map_mk_cluster {pi : PriorityIssue} {l : List Cluster}
    (h : pi ∈ l.map mkPriorityIssue) : pi.cluster ∈ l := by
  obtain ⟨c, hc, rfl⟩ := List.mem_map.mp h
  exact hc

/-- Clusters reaching the general-issue partitions carry their filter
predicates. -/
lemma mem_generalClustersOf {c : Cluster} {clusters : List Cluster}
    (h : c ∈ generalClustersOf clusters) : c ∈ clusters ∧ 1 < c.count := by
  obtain ⟨hm, hp⟩ := List.mem_filter.mp h
  exact ⟨sortByScore_subset _ hm, by simpa using hp⟩

/-- Clusters reaching the singleton partitions have count one. -/
lemma mem_allSingleItemClustersOf {c : Cluster} {clusters : List Cluster}
    (h : c ∈ allSingleItemClustersOf clusters) : c ∈ clusters ∧ c.count = 1 := by
  obtain ⟨hm, hp⟩ := List.mem_filter.mp h
  exact ⟨sortByScore_subset _ hm, by simpa using hp⟩

/-- C8 (amended): a cluster with `fix_status = resolved` and more than one
member appears in none of the digest buckets — not among the merged top
issues, monitoring, failed fixes, individual support, or positive feedback.
(The count hypothesis is needed: the singleton buckets do not inspect
`fix_status`, see the counterexample.) -/
theorem resolved_excluded (clusters : List Cluster) (c : Cluster)
    (hres : c.fix_status = some "resolved") (hcount : 1 < c.count) :
    c ∉ (assembleDigest clusters).top_issues.map PriorityIssue.cluster
    ∧ c ∉ (assembleDigest clusters).monitoring.map PriorityIssue.cluster
    ∧ c ∉ (assembleDigest clusters).failed_fixes.map PriorityIssue.cluster
    ∧ c ∉ (assembleDigest clusters).individual_support.map PriorityIssue.cluster
    ∧ c ∉ (assembleDigest clusters).positive_feedback.map PriorityIssue.cluster := by
  have hsingle : ∀ l, c ∈ allSingleItemClustersOf l → False := by
    intro l hl
    have := (mem_allSingleItemClustersOf hl).2
    omega
  have hnew : c ∉ newIssuesOf clusters := by
    intro hl
    have hp := (List.mem_filter.mp hl).2
    rw [hres] at hp
    simp at hp
  have hdep : c ∉ fixDeployedOf clusters := by
    intro hl
    have hp := (List.mem_filter.mp hl).2
    rw [hres] at hp
    simp at hp
  have hfail : c ∉ fixFailedOf clusters := by
    intro hl
    have hp := (List.mem_filter.mp hl).2
    rw [hres] at hp
    simp at hp
  have htop : c ∉ (newTopIssuesOf clusters).map PriorityIssue.cluster := by
    intro hc
    obtain ⟨pi, hpi, rfl⟩ := List.mem_map.mp hc
    have := mem_map_mk_cluster hpi
    exact hnew (sortByScore_subset _ (List.take_subset _ _ this))
  have hmon : c ∉ (monitoringIssuesOf clusters).map PriorityIssue.cluster := by
    intro hc
    obtain ⟨pi, hpi, rfl⟩ := List.mem_map.mp hc
    exact hdep (sortByScore_subset _ (mem_map_mk_cluster hpi))
  have hfailm : c ∉ (failedFixesOf clusters).map PriorityIssue.cluster := by
    intro hc
    obtain ⟨pi, hpi, rfl⟩ := List.mem_map.mp hc
    exact hfail (sortByScore_subset _ (mem_map_mk_cluster hpi))
  refine ⟨?_, hmon, hfailm, ?_, ?_⟩
  · intro hc
    obtain ⟨pi, hpi, rfl⟩ := List.mem_map.mp hc
    have hpi2 := hpi
    unfold allIssuesForDigestOf at hpi2
    rcases List.mem_append.mp hpi2 with hin | hin
    · rcases List.mem_append.mp hin with hin2 | hin2
      · exact htop (List.mem_map_of_mem _ hin2)
      · exact hmon (List.mem_map_of_mem _ (List.mem_filter.mp hin2).1)
    · exact hfailm (List.mem_map_of_mem _ (List.mem_filter.mp hin).1)
  · intro hc
    obtain ⟨pi, hpi, rfl⟩ := List.mem_map.mp hc
    have := mem_map_mk_cluster hpi
    have hm := sortByScore_subset _ (List.take_subset _ _ this)
    exact hsingle clusters (List.mem_filter.mp hm).1
  · intro hc
    obtain ⟨pi, hpi, rfl⟩ := List.mem_map.mp hc
    have hm := sortByScore_subset _ (mem_map_mk_cluster hpi)
    exact hsingle clusters (List.mem_filter.mp hm).1

/-- A resolved cluster with several members, for the C8 witness. -/
def resolvedGeneralCluster : Cluster :=
  { cluster_id := "c1", category := "bug", severity := "P1", centroid := [1],
    count := 5, first_seen := 0, last_seen := 0,
    representative_feedback_id := "f1", representative_feedback := "app crashes",
    summary := "", suggested_action := "", user_impact := "",
    priority_score := 0, sentiment_score := 0.5, top_sources := ["support"],
    fix_status := some "resolved", fix_deployed_date := some 86400000,
    fix_deployed_version := none, rollout_period_days := some 7,
    original_severity := some "P1", current_severity := some "P3",
    reports_before_fix := some 7, reports_after_fix := some 0,
    fix_notes := none }

/-- Witness for C8: the resolved multi-member cluster stays out of the merged
top-issue bucket. -/
theorem resolved_excluded_witness :
    resolvedGeneralCluster.fix_status = some "resolved"
    ∧ 1 < resolvedGeneralCluster.count
    ∧ resolvedGeneralCluster ∉
        (assembleDigest [resolvedGeneralCluster]).top_issues.map PriorityIssue.cluster :=
  ⟨rfl, by decide,
    (resolved_excluded [resolvedGeneralCluster] resolvedGeneralCluster rfl (by decide)).1⟩

/-- A resolved singleton cluster whose text is not positive feedback. -/
def resolvedSingletonCluster : Cluster :=
  { cluster_id := "c9", category := "other", severity := "P3", centroid := [1],
    count := 1, first_seen := 0, last_seen := 0,
    representative_feedback_id := "f9",
    representative_feedback := "where is the export button",
    summary := "", suggested_action := "", user_impact := "",
    priority_score := 0, sentiment_score := 0.5, top_sources := ["support"],
    fix_status := some "resolved", fix_deployed_date := none,
    fix_deployed_version := none, rollout_period_days := none,
    original_severity := none, current_severity := none,
    reports_before_fix := none, reports_after_fix := none,
    fix_notes := none }

/-- C8 (counterexample): a resolved cluster with exactly one member lands in
the individual-support bucket — the singleton partition (index.ts 1066-1068)
never inspects `fix_status` — contradicting the claim that a resolved cluster
appears in no bucket. -/
theorem resolved_singleton_in_digest_cex :
    resolvedSingletonCluster.fix_status = some "resolved"
    ∧ resolvedSingletonCluster ∈
        (assembleDigest [resolvedSingletonCluster]).individual_support.map
          PriorityIssue.cluster := by
  refine ⟨rfl, ?_⟩
  have hpos : isPositiveFeedback resolvedSingletonCluster = false := by decide
  have hcnt : (resolvedSingletonCluster.count == 1) = true := by decide
  show resolvedSingletonCluster ∈
    (individualSupportOf [resolvedSingletonCluster]).map PriorityIssue.cluster
  unfold individualSupportOf individualSupportClustersOf allSingleItemClustersOf
  rw [show sortByScore [resolvedSingletonCluster] = [resolvedSingletonCluster] from rfl]
  rw [List.filter_cons, if_pos (by simp [hcnt])]
  rw [List.filter_nil, List.filter_cons, if_pos (by simp [hpos])]
  rw [List.filter_nil]
  rw [show sortByScore [resolvedSingletonCluster] = [resolvedSingletonCluster] from rfl]
  simp [mkPriorityIssue]

/-! ### Loading stored clusters (index.ts 1284-1334)

A stored cluster row. The `centroid` column is persisted as a JSON string;
its parse outcome is modelled as `Option (List ℚ)`: `none` when
`JSON.parse` throws or the value is not an array (both make the source skip
the row — the exception through the surrounding `try`, the non-array through
the `Array.isArray` guard), `some []` when the column is NULL (parsed from
the `'[]'` fallback) or an empty array. The `top_sources` column is modelled
by its parsed value. -/

structure ClusterRow where
  cluster_id : String
  category : String
  severity : String
  centroid : Option (List ℚ)
  count : ℕ
  first_seen : ℚ
  last_seen : ℚ
  representative_feedback_id : String
  representative_feedback : String
  summary : Option String
  suggested_action : Option String
  user_impact : Option String
  priority_score : Option ℝ
  sentiment_score : Option ℚ
  top_sources : List String
  fix_status : Option String
  fix_deployed_date : Option ℚ
  fix_deployed_version : Option String
  rollout_period_days : Option ℕ
  original_severity : Option String
  current_severity : Option String
  reports_before_fix : Option ℕ
  reports_after_fix : Option ℕ
  fix_notes : Option String

/-- The in-memory cluster built from a row (index.ts 1300-1326): note the
`severity` column is replaced by `current_severity || severity`, and the
falsy-field fallbacks (`|| ''`, `|| 0`, `|| 0.5`, `|| 'open'`, `|| 7`,
`original_severity || severity`, `current_severity || severity`). A
`|| 0` fallback on a numeric column is the identity on present values, hence
`Option.getD 0`. -/
def rowToCluster (row : ClusterRow) (cent : List ℚ) : Cluster :=
  { cluster_id := row.cluster_id
    category := row.category
    severity := jsOrStr row.current_severity row.severity
    centroid := cent
    count := row.count
    first_seen := row.first_seen
    last_seen := row.last_seen
    representative_feedback_id := row.representative_feedback_id
    representative_feedback := row.representative_feedback
    summary := jsOrStr row.summary ""
    suggested_action := jsOrStr row.suggested_action ""
    user_impact := jsOrStr row.user_impact ""
    priority_score := row.priority_score.getD 0
    sentiment_score := jsOrQ row.sentiment_score 0.5
    top_sources := row.top_sources
    fix_status := some (jsOrStr row.fix_status "open")
    fix_deployed_date := row.fix_deployed_date
    fix_deployed_version := row.fix_deployed_version
    rollout_period_days := some (jsOrNat row.rollout_period_days 7)
    original_severity := some (jsOrStr row.original_severity row.severity)
    current_severity := some (jsOrStr row.current_severity row.severity)
    reports_before_fix := row.reports_before_fix
    reports_after_fix := row.reports_after_fix
    fix_notes := row.fix_notes }

/-- Parsing the stored clusters (index.ts 1294-1334): a row whose centroid
column fails to parse to a nonempty array is skipped. -/
def loadClusters (rows : List ClusterRow) : List Cluster :=
  rows.filterMap (fun row =>
    match row.centroid with
    | none => none
    | some cent => if cent.length = 0 then none else some (rowToCluster row cent))

/-! ### The digest pass (`generateMorningDigest`, index.ts 972-1218)

The pass loads the active clusters, clusters the unprocessed feedback batch,
evaluates the fix lifecycle of every working cluster, recomputes every
priority score, and assembles the digest. The `summarizeCluster` stage only
fills the free-text summary fields through the AI collaborator and affects no
bucket decision; it is omitted. -/

noncomputable def generateMorningDigest (classify : String → Classification)
    (embed : String → List ℚ) (now : ℚ) (rows : List ClusterRow)
    (members : List (String × String)) (uuids : List String)
    (feedbacks : List Feedback) : List Cluster × DigestBuckets :=
  let clusters0 := loadClusters rows
  let st := clusterFeedbacksWithEmbeddings classify embed clusters0 members uuids feedbacks
  let clusters1 := st.clusters.map (evaluateFixStatus now)
  let clusters2 := clusters1.map (fun c => { c with priority_score := calculatePriorityScore now c })
  (clusters2, assembleDigest clusters2)

/-- One clustering step only introduces cluster ids drawn from the incoming
state's ids, its fresh-id supply, or the exhausted-supply placeholder, and
never grows the supply. -/
lemma clusterStep_ids (classify : String → Classification) (embed : String → List ℚ)
    (alreadyClustered : List String) (st : PassState) (feedback : Feedback) :
    (∀ i ∈ (clusterStep classify embed alreadyClustered st feedback).clusters.map
        Cluster.cluster_id,
      i ∈ st.clusters.map Cluster.cluster_id ∨ i ∈ st.uuids ∨ i = "")
    ∧ (clusterStep classify embed alreadyClustered st feedback).uuids ⊆ st.uuids := by
  have hhead : st.uuids.headD "" ∈ st.uuids ∨ st.uuids.headD "" = "" := by
    cases st.uuids with
    | nil => exact Or.inr rfl
    | cons u us => exact Or.inl (List.mem_cons_self _ _)
  have htail : st.uuids.tail ⊆ st.uuids := by
    cases st.uuids with
    | nil => exact fun x hx => hx
    | cons u us => exact fun x hx => List.mem_cons_of_mem _ hx
  unfold clusterStep
  split_ifs with h1 h2 h3
  · exact ⟨fun i hi => Or.inl hi, fun x hx => hx⟩
  · exact ⟨fun i hi => Or.inl hi, fun x hx => hx⟩
  · refine ⟨?_, htail⟩
    intro i hi
    rw [List.map_append] at hi
    rcases List.mem_append.mp hi with hi | hi
    · exact Or.inl hi
    · simp only [List.map_cons, List.map_nil, List.mem_singleton] at hi
      subst hi
      rcases hhead with hh | hh
      · exact Or.inr (Or.inl hh)
      · exact Or.inr (Or.inr hh)
  · dsimp only
    cases hm : findMatch (embed feedback.content) feedback.content
        (classify feedback.content) st.clusters with
    | some m =>
      dsimp only
      refine ⟨?_, fun x hx => hx⟩
      intro i hi
      left
      rw [List.map_map] at hi
      obtain ⟨c, hc, rfl⟩ := List.mem_map.mp hi
      dsimp only [Function.comp] at *
      by_cases hid : c.cluster_id = m.cluster_id
      · rw [if_pos hid]
        exact hid ▸ List.mem_map_of_mem _ hc
      · rw [if_neg hid]
        exact List.mem_map_of_mem _ hc
    | none =>
      dsimp only
      refine ⟨?_, htail⟩
      intro i hi
      rw [List.map_append] at hi
      rcases List.mem_append.mp hi with hi | hi
      · exact Or.inl hi
      · simp only [List.map_cons, List.map_nil, List.mem_singleton] at hi
        subst hi
        rcases hhead with hh | hh
        · exact Or.inr (Or.inl hh)
        · exact Or.inr (Or.inr hh)

/-- Folding a batch only introduces cluster ids drawn from the initial ids,
the fresh-id supply, or the exhausted-supply placeholder. -/
lemma clusterFold_ids (classify : String → Classification) (embed : String → List ℚ)
    (alreadyClustered : List String) :
    ∀ (feedbacks : List Feedback) (st : PassState),
      (∀ i ∈ (feedbacks.foldl (clusterStep classify embed alreadyClustered) st).clusters.map
          Cluster.cluster_id,
        i ∈ st.clusters.map Cluster.cluster_id ∨ i ∈ st.uuids ∨ i = "")
      ∧ (feedbacks.foldl (clusterStep classify embed alreadyClustered) st).uuids ⊆ st.uuids := by
  intro feedbacks
  induction feedbacks with
  | nil => exact fun st => ⟨fun i hi => Or.inl hi, fun x hx => hx⟩
  | cons f rest ih =>
    intro st
    simp only [List.foldl_cons]
    obtain ⟨ihc, ihu⟩ := ih (clusterStep classify embed alreadyClustered st f)
    obtain ⟨hsc, hsu⟩ := clusterStep_ids classify embed alreadyClustered st f
    constructor
    · intro i hi
      rcases ihc i hi with hi2 | hi2 | hi2
      · exact hsc i hi2
      · exact Or.inr (Or.inl (hsu hi2))
      · exact Or.inr (Or.inr hi2)
    · exact fun x hx => hsu (ihu hx)

/-- Fix evaluation keeps the cluster id. -/
lemma evaluateFixStatus_id (now : ℚ) (c : Cluster) :
    (evaluateFixStatus now c).cluster_id = c.cluster_id := by
  unfold evaluateFixStatus
  dsimp only
  split_ifs <;> rfl

/-- Every digest bucket entry is built from a cluster of the assembly
input. -/
lemma bucket_cluster_mem (clusters : List Cluster) :
    (∀ pi ∈ (assembleDigest clusters).top_issues, pi.cluster ∈ clusters)
    ∧ (∀ pi ∈ (assembleDigest clusters).monitoring, pi.cluster ∈ clusters)
    ∧ (∀ pi ∈ (assembleDigest clusters).failed_fixes, pi.cluster ∈ clusters)
    ∧ (∀ pi ∈ (assembleDigest clusters).individual_support, pi.cluster ∈ clusters)
    ∧ (∀ pi ∈ (assembleDigest clusters).positive_feedback, pi.cluster ∈ clusters) := by
  have hnew : ∀ pi ∈ newTopIssuesOf clusters, pi.cluster ∈ clusters := by
    intro pi hpi
    have := mem_map_mk_cluster hpi
    have h2 := sortByScore_subset _ (List.take_subset _ _ this)
    have h3 := (List.mem_filter.mp h2).1
    exact (mem_generalClustersOf h3).1
  have hmon : ∀ pi ∈ monitoringIssuesOf clusters, pi.cluster ∈ clusters := by
    intro pi hpi
    have := sortByScore_subset _ (mem_map_mk_cluster hpi)
    have h3 := (List.mem_filter.mp this).1
    exact (mem_generalClustersOf h3).1
  have hfail : ∀ pi ∈ failedFixesOf clusters, pi.cluster ∈ clusters := by
    intro pi hpi
    have := sortByScore_subset _ (mem_map_mk_cluster hpi)
    have h3 := (List.mem_filter.mp this).1
    exact (mem_generalClustersOf h3).1
  refine ⟨?_, hmon, hfail, ?_, ?_⟩
  · intro pi hpi
    unfold assembleDigest allIssuesForDigestOf at hpi
    dsimp only at hpi
    rcases List.mem_append.mp hpi with hin | hin
    · rcases List.mem_append.mp hin with hin2 | hin2
      · exact hnew pi hin2
      · exact hmon pi (List.mem_filter.mp hin2).1
    · exact hfail pi (List.mem_filter.mp hin).1
  · intro pi hpi
    have := mem_map_mk_cluster hpi
    have h2 := sortByScore_subset _ (List.take_subset _ _ this)
    have h3 := (List.mem_filter.mp h2).1
    exact (mem_allSingleItemClustersOf h3).1
  · intro pi hpi
    have := sortByScore_subset _ (mem_map_mk_cluster hpi)
    have h3 := (List.mem_filter.mp this).1
    exact (mem_allSingleItemClustersOf h3).1

/-- C10: a stored cluster row whose centroid column does not parse to a
nonempty array is absent from the working set of the pass — so it is never a
matching candidate — and, provided its id is not among the fresh ids coined
during the pass, it is absent from the pass's final cluster list (hence gets
no fix-lifecycle evaluation and no priority-score update) and from every
digest bucket, while the row itself is never deleted. -/
theorem invalid_centroid_excluded (classify : String → Classification)
    (embed : String → List ℚ) (now : ℚ) (rows : List ClusterRow)
    (members : List (String × String)) (uuids : List String)
    (feedbacks : List Feedback) (r : ClusterRow)
    (hr : r ∈ rows)
    (hbad : r.centroid = none ∨ r.centroid = some [])
    (hids : (rows.map ClusterRow.cluster_id).Nodup)
    (huuid : r.cluster_id ∉ uuids)
    (hne : r.cluster_id ≠ "") :
    r.cluster_id ∉ (loadClusters rows).map Cluster.cluster_id
    ∧ r.cluster_id ∉
        ((generateMorningDigest classify embed now rows members uuids feedbacks).1.map
          Cluster.cluster_id)
    ∧ (∀ pi ∈ (generateMorningDigest classify embed now rows members uuids
          feedbacks).2.top_issues, pi.cluster.cluster_id ≠ r.cluster_id)
    ∧ (∀ pi ∈ (generateMorningDigest classify embed now rows members uuids
          feedbacks).2.monitoring, pi.cluster.cluster_id ≠ r.cluster_id)
    ∧ (∀ pi ∈ (generateMorningDigest classify embed now rows members uuids
          feedbacks).2.failed_fixes, pi.cluster.cluster_id ≠ r.cluster_id)
    ∧ (∀ pi ∈ (generateMorningDigest classify embed now rows members uuids
          feedbacks).2.individual_support, pi.cluster.cluster_id ≠ r.cluster_id)
    ∧ (∀ pi ∈ (generateMorningDigest classify embed now rows members uuids
          feedbacks).2.positive_feedback, pi.cluster.cluster_id ≠ r.cluster_id) := by
  have hparse : ∀ c ∈ loadClusters rows,
      ∃ row, row ∈ rows ∧ ∃ cent, row.centroid = some cent ∧ cent.length ≠ 0
        ∧ c = rowToCluster row cent := by
    intro c hc
    obtain ⟨row, hrow, hfm⟩ := List.mem_filterMap.mp hc
    cases hcent : row.centroid with
    | none => rw [hcent] at hfm; exact absurd hfm (by simp)
    | some cent =>
      rw [hcent] at hfm
      dsimp only at hfm
      by_cases hlen : cent.length = 0
      · rw [if_pos hlen] at hfm; exact absurd hfm (by simp)
      · rw [if_neg hlen] at hfm
        exact ⟨row, hrow, cent, hcent, hlen, (Option.some_inj.mp hfm).symm⟩
  have hload : r.cluster_id ∉ (loadClusters rows).map Cluster.cluster_id := by
    intro hin
    obtain ⟨c, hc, hcid⟩ := List.mem_map.mp hin
    obtain ⟨row, hrow, cent, hcent, hlen, hcr⟩ := hparse c hc
    have hrowid : row.cluster_id = r.cluster_id := by
      rw [hcr] at hcid
      exact hcid
    have heq := List.inj_on_of_nodup_map hids hrow hr hrowid
    subst heq
    rcases hbad with hb | hb
    · rw [hb] at hcent
      exact Option.noConfusion hcent
    · rw [hb] at hcent
      have hnil : ([] : List ℚ) = cent := Option.some_inj.mp hcent
      rw [← hnil] at hlen
      exact hlen rfl
  have hworking : ∀ i ∈ ((generateMorningDigest classify embed now rows members uuids
      feedbacks).1.map Cluster.cluster_id), i ≠ r.cluster_id := by
    intro i hi hir
    subst hir
    unfold generateMorningDigest at hi
    dsimp only at hi
    rw [List.map_map, List.map_map] at hi
    obtain ⟨c, hc, hcid⟩ := List.mem_map.mp hi
    have hcid2 : c.cluster_id = r.cluster_id := by
      have h2 : (evaluateFixStatus now c).cluster_id = r.cluster_id := hcid
      rw [evaluateFixStatus_id now c] at h2
      exact h2
    have hin : r.cluster_id ∈ (clusterFeedbacksWithEmbeddings classify embed
        (loadClusters rows) members uuids feedbacks).clusters.map Cluster.cluster_id := by
      rw [← hcid2]
      exact List.mem_map_of_mem _ hc
    unfold clusterFeedbacksWithEmbeddings at hin
    have := (clusterFold_ids classify embed (members.map Prod.snd) feedbacks
      { clusters := loadClusters rows, members := members, uuids := uuids,
        processed := [] }).1 r.cluster_id hin
    rcases this with h | h | h
    · exact hload h
    · exact huuid h
    · exact hne h
  refine ⟨hload, fun hin => hworking r.cluster_id hin rfl, ?_, ?_, ?_, ?_, ?_⟩ <;>
    · intro pi hpi hpid
      have hb := bucket_cluster_mem ((generateMorningDigest classify embed now rows members
        uuids feedbacks).1)
      first
      | exact hworking _ (by
          rw [← hpid]
          exact List.mem_map_of_mem _ (hb.1 pi hpi)) rfl
      | exact hworking _ (by
          rw [← hpid]
          exact List.mem_map_of_mem _ (hb.2.1 pi hpi)) rfl
      | exact hworking _ (by
          rw [← hpid]
          exact List.mem_map_of_mem _ (hb.2.2.1 pi hpi)) rfl
      | exact hworking _ (by
          rw [← hpid]
          exact List.mem_map_of_mem _ (hb.2.2.2.1 pi hpi)) rfl
      | exact hworking _ (by
          rw [← hpid]
          exact List.mem_map_of_mem _ (hb.2.2.2.2 pi hpi)) rfl

/-- A stored row whose centroid column is the empty array. -/
def badCentroidRow : ClusterRow :=
  { cluster_id := "c7", category := "bug", severity := "P1", centroid := some [],
    count := 3, first_seen := 0, last_seen := 0,
    representative_feedback_id := "f7", representative_feedback := "app crashes",
    summary := none, suggested_action := none, user_impact := none,
    priority_score := none, sentiment_score := none, top_sources := ["support"],
    fix_status := some "open", fix_deployed_date := none,
    fix_deployed_version := none, rollout_period_days := none,
    original_severity := none, current_severity := none,
    reports_before_fix := none, reports_after_fix := none,
    fix_notes := none }

/-- Witness for C10: the empty-centroid row is not in the working set of a
pass over it. -/
theorem invalid_centroid_excluded_witness :
    badCentroidRow ∈ [badCentroidRow]
    ∧ (badCentroidRow.centroid = none ∨ badCentroidRow.centroid = some [])
    ∧ badCentroidRow.cluster_id ∉
        (loadClusters [badCentroidRow]).map Cluster.cluster_id :=
  ⟨List.mem_singleton.mpr rfl, Or.inr rfl,
    (invalid_centroid_excluded classifyDefault embedZero 0 [badCentroidRow] [] [] []
      badCentroidRow (List.mem_singleton.mpr rfl) (Or.inr rfl) (by simp)
      (by simp) (by decide)).1⟩

end CFFeedback
